import Mathlib

/-!
Shallow embedding of the build-observability pipeline of the
Market-Data-Collector repository, together with theorems settling the
frozen specification claims.

Source files embedded here:
* `build/python/core/fingerprint.py` (`BuildFingerprint.compute`)
* `build/python/core/events.py` (`BuildEventEmitter`)
* `build/python/analytics/metrics.py` (`MetricsCollector`)
* `build-system/analytics/history.py` (`BuildHistory`)
* `build/python/diagnostics/error_matcher.py` (`ErrorMatcher._load_patterns`)
* `build-system/cli/buildctl.py` (`run_build`, `anomaly_warning`)

External effects (wall clock, subprocess probes, the file system, the
adapter) are modelled as explicit inputs; machine-level details
(SHA-256, JSON canonical serialization with sorted keys) are embedded
executably so that claims about concrete digests can be decided.
-/

namespace BuildObs

/-! ## SHA-256 over byte lists (bytes are `Nat < 256`, words are `Nat < 2^32`) -/

/-- Truncation to a 32-bit word, `n mod 2^32`. -/
def w32 (n : Nat) : Nat := n % 4294967296

/-- Right rotation of a 32-bit word by `n` places. -/
def rotr32 (x n : Nat) : Nat := w32 ((x >>> n) ||| (x <<< (32 - n)))

/-- SHA-256 `Ch` function. -/
def shaCh (e f g : Nat) : Nat := (e &&& f) ^^^ ((4294967295 ^^^ e) &&& g)

/-- SHA-256 `Maj` function. -/
def shaMaj (a b c : Nat) : Nat := (a &&& b) ^^^ (a &&& c) ^^^ (b &&& c)

/-- SHA-256 big sigma 0. -/
def bsig0 (x : Nat) : Nat := rotr32 x 2 ^^^ rotr32 x 13 ^^^ rotr32 x 22

/-- SHA-256 big sigma 1. -/
def bsig1 (x : Nat) : Nat := rotr32 x 6 ^^^ rotr32 x 11 ^^^ rotr32 x 25

/-- SHA-256 small sigma 0. -/
def ssig0 (x : Nat) : Nat := rotr32 x 7 ^^^ rotr32 x 18 ^^^ (x >>> 3)

/-- SHA-256 small sigma 1. -/
def ssig1 (x : Nat) : Nat := rotr32 x 17 ^^^ rotr32 x 19 ^^^ (x >>> 10)

/-- SHA-256 round constants. -/
def shaK : List Nat :=
  [1116352408, 1899447441, 3049323471, 3921009573, 961987163, 1508970993,
   2453635748, 2870763221, 3624381080, 310598401, 607225278, 1426881987,
   1925078388, 2162078206, 2614888103, 3248222580, 3835390401, 4022224774,
   264347078, 604807628, 770255983, 1249150122, 1555081692, 1996064986,
   2554220882, 2821834349, 2952996808, 3210313671, 3336571891, 3584528711,
   113926993, 338241895, 666307205, 773529912, 1294757372, 1396182291,
   1695183700, 1986661051, 2177026350, 2456956037, 2730485921, 2820302411,
   3259730800, 3345764771, 3516065817, 3600352804, 4094571909, 275423344,
   430227734, 506948616, 659060556, 883997877, 958139571, 1322822218,
   1537002063, 1747873779, 1955562222, 2024104815, 2227730452, 2361852424,
   2428436474, 2756734187, 3204031479, 3329325298]

/-- SHA-256 initial hash state. -/
def shaH0 : List Nat :=
  [1779033703, 3144134277, 1013904242, 2773480762, 1359893119, 2600822924,
   528734635, 1541459225]

/-- Pad a byte message per SHA-256: append `0x80`, zeros, then the 64-bit
big-endian bit length. -/
def sha256pad (msg : List Nat) : List Nat :=
  let l := msg.length
  let r := (l + 1) % 64
  let zeros := if r ≤ 56 then 56 - r else 120 - r
  let bitLen := 8 * l
  msg ++ [128] ++ List.replicate zeros 0 ++
    ((List.range 8).map fun i => (bitLen >>> (8 * (7 - i))) % 256)

/-- Split a byte list into 64-byte blocks (structural recursion on a fuel
bound; each step consumes at least one element, so `l.length` steps
suffice). -/
def chunks64Go : Nat → List Nat → List (List Nat)
  | 0, _ => []
  | _, [] => []
  | fuel + 1, a :: rest => (a :: rest).take 64 :: chunks64Go fuel ((a :: rest).drop 64)

/-- Split a byte list into 64-byte blocks. -/
def chunks64 (l : List Nat) : List (List Nat) := chunks64Go l.length l

/-- The 16 initial 32-bit message-schedule words of one 64-byte block
(big-endian). -/
def blockWords (block : List Nat) : List Nat :=
  (List.range 16).map fun i =>
    block.getD (4 * i) 0 * 16777216 + block.getD (4 * i + 1) 0 * 65536 +
      block.getD (4 * i + 2) 0 * 256 + block.getD (4 * i + 3) 0

/-- Extend 16 schedule words to 64. -/
def schedule (w16 : List Nat) : List Nat :=
  (List.range 48).foldl
    (fun w _ =>
      w ++ [w32 (ssig1 (w.getD (w.length - 2) 0) + w.getD (w.length - 7) 0 +
        ssig0 (w.getD (w.length - 15) 0) + w.getD (w.length - 16) 0)])
    w16

/-- One SHA-256 compression round on an 8-word state. -/
def sha256round (st : List Nat) (kt wt : Nat) : List Nat :=
  let a := st.getD 0 0
  let b := st.getD 1 0
  let c := st.getD 2 0
  let d := st.getD 3 0
  let e := st.getD 4 0
  let f := st.getD 5 0
  let g := st.getD 6 0
  let h := st.getD 7 0
  let t1 := w32 (h + bsig1 e + shaCh e f g + kt + wt)
  let t2 := w32 (bsig0 a + shaMaj a b c)
  [w32 (t1 + t2), a, b, c, w32 (d + t1), e, f, g]

/-- Compress one 64-byte block into the running hash state. -/
def compressBlock (h : List Nat) (block : List Nat) : List Nat :=
  let w := schedule (blockWords block)
  let st := (List.range 64).foldl
    (fun st t => sha256round st (shaK.getD t 0) (w.getD t 0)) h
  List.zipWith (fun x y => w32 (x + y)) h st

/-- SHA-256 of a byte message, as the 32-byte digest. -/
def sha256 (msg : List Nat) : List Nat :=
  let final := (chunks64 (sha256pad msg)).foldl compressBlock shaH0
  final.flatMap fun word =>
    [(word >>> 24) % 256, (word >>> 16) % 256, (word >>> 8) % 256, word % 256]

/-- Lower-case hex character for a value below 16. -/
def hexChar (n : Nat) : Char :=
  if n < 10 then Char.ofNat (48 + n) else Char.ofNat (87 + n)

/-- Two-character lower-case hex rendering of one byte. -/
def byteHex (b : Nat) : String :=
  String.mk [hexChar (b / 16), hexChar (b % 16)]

/-- Lower-case hex digest of a byte list (Python `hexdigest()`). -/
def hexDigest (bytes : List Nat) : String := String.join (bytes.map byteHex)

/-- Bytes of a string, one `Nat` per character code point. For the ASCII
strings produced by `json.dumps` (which escapes non-ASCII by default) this
coincides with the UTF-8 encoding used by `.encode("utf-8")`. -/
def strBytes (s : String) : List Nat := s.data.map Char.toNat

/-- SHA-256 hex digest of a string, as `hashlib.sha256(s.encode("utf-8")).hexdigest()`. -/
def sha256Hex (s : String) : String := hexDigest (sha256 (strBytes s))

/-! ## Canonical JSON serialization (`json.dumps(payload, sort_keys=True)`)

Embedded for the fixed fingerprint payload shape: an object whose values
are strings or string-to-string maps, rendered with Python's default
separators `", "` and `": "` and keys in sorted order. -/

/-- JSON string-content escaping for backslash and double quote (the only
escapes the embedded payloads can need: probe values here contain no
control characters and `json.dumps` escapes non-ASCII away). -/
def jsonEscape (s : String) : String :=
  String.join (s.data.map fun c =>
    if c = '\\' then "\\\\" else if c = '"' then "\\\"" else String.singleton c)

/-- A JSON string literal. -/
def jsonStr (s : String) : String := "\"" ++ jsonEscape s ++ "\""

/-- Lexicographic order on code-point lists: Python's string comparison. -/
def charListLe : List Char → List Char → Bool
  | [], _ => true
  | _ :: _, [] => false
  | a :: as, b :: bs =>
      if a.toNat < b.toNat then true
      else if b.toNat < a.toNat then false
      else charListLe as bs

/-- Python's `<=` on strings: lexicographic by code point. -/
def strLe (a b : String) : Bool := charListLe a.data b.data

/-- Sort an association list by key, as Python's `sorted` on `dict` keys. -/
def sortPairs (m : List (String × String)) : List (String × String) :=
  m.insertionSort fun a b => strLe a.1 b.1 = true

/-- A JSON object from serialized key/value pairs, Python default
separators. -/
def jsonObj (fields : List (String × String)) : String :=
  "\x7b" ++ String.intercalate ", "
    (fields.map fun kv => jsonStr kv.1 ++ ": " ++ kv.2) ++ "\x7d"

/-- A JSON object of string values with sorted keys (nested dicts under
`sort_keys=True`). -/
def jsonStrMap (m : List (String × String)) : String :=
  jsonObj ((sortPairs m).map fun kv => (kv.1, jsonStr kv.2))

/-! ## `BuildFingerprint.compute` (`build/python/core/fingerprint.py`)

The external probes (`iso_timestamp`, `_git_tree_hash`/`_hash_files`,
`_tool_versions`, `_lock_file_hashes`, `_environment_snapshot`,
`platform.platform()`, `platform.machine()`) are effects; their results
are the explicit `FingerprintProbes` input. Given the probe results,
`compute` is the pure function embedded below. -/

/-- Results of the probes gathered by `BuildFingerprint.compute`:
`timestamp` from `iso_timestamp()`, `sourceHash` from the git tree hash or
the file-content fallback, the tool-version, lock-file-hash and
environment maps, and the platform strings. -/
structure FingerprintProbes where
  timestamp : String
  sourceHash : String
  toolVersions : List (String × String)
  dependencyLockHashes : List (String × String)
  environment : List (String × String)
  os : String
  architecture : String
deriving DecidableEq

/-- The payload dict built by `compute`, including the final
`fingerprint` digest field. -/
structure FingerprintPayload where
  timestamp : String
  sourceHash : String
  toolVersions : List (String × String)
  dependencyLockHashes : List (String × String)
  environment : List (String × String)
  configuration : String
  os : String
  architecture : String
  fingerprint : String
deriving DecidableEq

/-- The canonical byte sequence digested by `compute`:
`json.dumps(payload, sort_keys=True)` of the payload before the
`fingerprint` key is added. Keys are listed in sorted order
(architecture, configuration, dependency_lock_hashes, environment, os,
source_hash, timestamp, tool_versions). -/
def serializePayload (p : FingerprintProbes) (configuration : String) : String :=
  jsonObj
    [("architecture", jsonStr p.architecture),
     ("configuration", jsonStr configuration),
     ("dependency_lock_hashes", jsonStrMap p.dependencyLockHashes),
     ("environment", jsonStrMap p.environment),
     ("os", jsonStr p.os),
     ("source_hash", jsonStr p.sourceHash),
     ("timestamp", jsonStr p.timestamp),
     ("tool_versions", jsonStrMap p.toolVersions)]

/-- `BuildFingerprint.compute(configuration)`: builds the payload from the
probe results and sets `fingerprint` to the SHA-256 hex digest of the
canonical serialization. -/
def compute (p : FingerprintProbes) (configuration : String) : FingerprintPayload :=
  { timestamp := p.timestamp
    sourceHash := p.sourceHash
    toolVersions := p.toolVersions
    dependencyLockHashes := p.dependencyLockHashes
    environment := p.environment
    configuration := configuration
    os := p.os
    architecture := p.architecture
    fingerprint := sha256Hex (serializePayload p configuration) }

/-- Concrete probe results for the fingerprint claims: a fixed tree,
tool set, lock files and environment. -/
def probeA : FingerprintProbes :=
  { timestamp := "2024-01-01T00:00:00.000Z"
    sourceHash := "tree0"
    toolVersions := [("dotnet", "8.0")]
    dependencyLockHashes := []
    environment := [("CI", "true")]
    os := "Linux"
    architecture := "x86_64" }

/-- The same probe results at the next probed timestamp: the tree,
environment, lock files and tools are unchanged; only the wall clock
moved. -/
def probeB : FingerprintProbes :=
  { probeA with timestamp := "2024-01-01T00:00:01.000Z" }

/-! ## `BuildEventEmitter` (`build/python/core/events.py`)

An emitted event is recorded by the arguments of the `emit` call (the
per-event `uuid4` id and `iso_timestamp` are effects orthogonal to the
claims). Sinks are modelled as the lists of events each has received; a
sink write that raises is modelled by a per-sink success flag. -/

/-- The arguments of one `BuildEventEmitter.emit` call. -/
structure EmitCall where
  phase : String
  project : String
  eventType : String
  durationMs : Option Nat := none
  context : List (String × String) := []
  errorCode : Option String := none
  errorMessage : Option String := none
  tags : List String := []
deriving DecidableEq

/-- `BuildEventEmitter._should_print`: `quiet` echoes only `failed` and
`warning` events; `normal`, `verbose`, `debug` and every other verbosity
string echo everything. -/
def shouldPrint (verbosity eventType : String) : Bool :=
  if verbosity = "quiet" then eventType = "failed" || eventType = "warning"
  else if verbosity = "normal" then true
  else if verbosity = "verbose" || verbosity = "debug" then true
  else true

/-- The three output sinks of the emitter: the JSONL journal, the
human-readable log, and the console echo, each as the list of events it
has received, in order. -/
structure SinkState where
  jsonl : List EmitCall := []
  humanLog : List EmitCall := []
  console : List EmitCall := []
deriving DecidableEq

/-- One `emit` call against fallible sinks. `_write_event` appends to the
JSONL journal and then to the human log, with no exception handling, so a
raising journal write skips the human log; `emit` then echoes to the
console when `_should_print` allows. A `false` flag means that sink's
write raises; the returned `Bool` is `true` when the whole call ran
without an exception. The sink lists that were already written stay
written (file appends are not rolled back). -/
def emitEvent (jsonlOk humanOk consoleOk : Bool) (verbosity : String)
    (e : EmitCall) (s : SinkState) : SinkState × Bool :=
  if !jsonlOk then (s, false)
  else
    let s1 := { s with jsonl := s.jsonl ++ [e] }
    if !humanOk then (s1, false)
    else
      let s2 := { s1 with humanLog := s1.humanLog ++ [e] }
      if shouldPrint verbosity e.eventType then
        if !consoleOk then (s2, false)
        else ({ s2 with console := s2.console ++ [e] }, true)
      else (s2, true)

/-! ## `MetricsCollector` (`build/python/analytics/metrics.py`)

The `metrics` dict is an association list with Python `dict` semantics:
assignment to a present key updates it in place, a new key is appended.
Metric values in the claims are integers, so values are `Int`. -/

/-- Python `dict` assignment `m[k] = v`: update in place when the key is
present, append otherwise. -/
def dictSet : List (String × Int) → String → Int → List (String × Int)
  | [], k, v => [(k, v)]
  | (k', v') :: rest, k, v =>
      if k' = k then (k, v) :: rest else (k', v') :: dictSet rest k v

/-- Python `dict` lookup `m.get(k)`. -/
def dictGet : List (String × Int) → String → Option Int
  | [], _ => none
  | (k', v') :: rest, k => if k' = k then some v' else dictGet rest k

/-- `MetricsCollector.record(name, value)`. -/
def record (m : List (String × Int)) (name : String) (value : Int) :
    List (String × Int) :=
  dictSet m name value

/-- Metric-name sanitization in the text-exposition export:
`key.replace(".", "_")`. -/
def sanitizeName (key : String) : String := key.replace "." "_"

/-- The `metrics.json` content written by `MetricsCollector.write()`:
`write_json` serializes the dict with sorted keys, so the exported pairs
are the dict sorted by name. -/
def metricsJsonPairs (m : List (String × Int)) : List (String × Int) :=
  m.insertionSort fun a b => strLe a.1 b.1 = true

/-- The `metrics.prom` lines written by `MetricsCollector.write()`: for
each metric in dict order, a `# TYPE <name> gauge` line then a
`<name> <value>` line, names sanitized. -/
def promLines (m : List (String × Int)) : List String :=
  m.flatMap fun kv =>
    ["# TYPE " ++ sanitizeName kv.1 ++ " gauge",
     sanitizeName kv.1 ++ " " ++ toString kv.2]

/-! ## `BuildHistory` (`build-system/analytics/history.py`)

The SQLite file is modelled as explicit table states; `record_build`
models `AUTOINCREMENT` ids as `row count + 1` and `lastrowid` as that
fresh id. -/

/-- The `BuildRecord` dataclass. -/
structure BuildRecord where
  fingerprint : String
  timestamp : String
  durationMs : Int
  success : Bool
  gitSha : String
  gitBranch : String
  warningsCount : Int
  errorsCount : Int
  configuration : String
deriving DecidableEq

/-- One row of the `builds` table as inserted by `record_build`
(`success` stored as 1/0). -/
structure BuildRow where
  id : Int
  fingerprint : String
  timestamp : String
  durationMs : Int
  success : Int
  gitSha : String
  gitBranch : String
  warningsCount : Int
  errorsCount : Int
  configuration : String
deriving DecidableEq

/-- One row of the `build_phases` table as inserted by `record_phase`. -/
structure PhaseRow where
  buildId : Int
  phase : String
  durationMs : Int
  success : Int
  cacheHit : Int
deriving DecidableEq

/-- One row of the `build_errors` table (the schema exists; nothing in the
source inserts into it). -/
structure ErrorRow where
  buildId : Int
  errorCode : String
  errorMessage : String
  phase : String
deriving DecidableEq

/-- The three tables created by `_init_db`. -/
structure HistoryDB where
  builds : List BuildRow := []
  buildPhases : List PhaseRow := []
  buildErrors : List ErrorRow := []
deriving DecidableEq

/-- The empty store right after `_init_db` on a fresh file. -/
def initDB : HistoryDB := {}

/-- The row `record_phase(build_id, phase, duration_ms, success)` inserts:
`success` as 1/0 and `cache_hit` as the literal 0. -/
def recordPhaseRow (buildId : Int) (phase : String) (durationMs : Int)
    (success : Bool) : PhaseRow :=
  { buildId := buildId
    phase := phase
    durationMs := durationMs
    success := if success then 1 else 0
    cacheHit := 0 }

/-- The row `record_build(record)` inserts, given the generated id. -/
def recordBuildRow (id : Int) (r : BuildRecord) : BuildRow :=
  { id := id
    fingerprint := r.fingerprint
    timestamp := r.timestamp
    durationMs := r.durationMs
    success := if r.success then 1 else 0
    gitSha := r.gitSha
    gitBranch := r.gitBranch
    warningsCount := r.warningsCount
    errorsCount := r.errorsCount
    configuration := r.configuration }

/-- The write operations `BuildHistory` exposes. -/
inductive HistoryOp where
  | recordBuild (r : BuildRecord)
  | recordPhase (buildId : Int) (phase : String) (durationMs : Int) (success : Bool)
deriving DecidableEq

/-- Apply one `BuildHistory` write to the table state. -/
def applyOp (db : HistoryDB) : HistoryOp → HistoryDB
  | .recordBuild r =>
      { db with builds := db.builds ++ [recordBuildRow (db.builds.length + 1) r] }
  | .recordPhase buildId phase durationMs success =>
      { db with buildPhases :=
          db.buildPhases ++ [recordPhaseRow buildId phase durationMs success] }

/-- Apply a sequence of `BuildHistory` writes. -/
def applyOps (db : HistoryDB) (ops : List HistoryOp) : HistoryDB :=
  ops.foldl applyOp db

/-- Exact arithmetic mean of a duration list. -/
def listMean (durations : List Int) : ℚ :=
  (durations.sum : ℚ) / (durations.length : ℚ)

/-- `BuildHistory.average_duration()`: `SELECT AVG(duration_ms) FROM
builds` yields SQL `NULL` on an empty table and the mean otherwise; the
Python truthiness test `if row and row[0]` maps both `NULL` and a 0.0
average to `None`. -/
def averageDuration (builds : List Int) : Option ℚ :=
  if builds = [] then none
  else if listMean builds = 0 then none
  else some (listMean builds)

/-- Durations of the `builds` table rows, in insertion order. -/
def buildDurations (db : HistoryDB) : List Int :=
  db.builds.map fun r => r.durationMs

/-! ## `ErrorMatcher._load_patterns` (`build/python/diagnostics/error_matcher.py`)

The knowledge directory is modelled as `none` when absent, otherwise the
list of `*.json` files in it; each file carries its name and `some
payload` when `read_text` + `json.loads` succeed, `none` when reading or
parsing raises. The payload type is abstract (`α`): the loader never
inspects it. -/

/-- One `*.json` knowledge file: its name and its parse outcome. -/
structure KnowledgeFile (α : Type) where
  name : String
  parsed : Option α

/-- Sort knowledge files by name, as `sorted(self.knowledge_dir.glob("*.json"))`. -/
def sortFiles {α : Type} (files : List (KnowledgeFile α)) : List (KnowledgeFile α) :=
  files.insertionSort fun a b => strLe a.name b.name = true

/-- The `for path in sorted(...)` body of `_load_patterns`: read and
parse each file in turn, appending its payload to the accumulator; a file
that fails to read or parse raises (modelled as `Except.error`). -/
def loadGo {α : Type} : List α → List (KnowledgeFile α) → Except Unit (List α)
  | acc, [] => .ok acc
  | acc, f :: rest =>
      match f.parsed with
      | none => .error ()
      | some p => loadGo (acc ++ [p]) rest

/-- `ErrorMatcher._load_patterns`: an absent directory yields `[]`;
otherwise every file is read and parsed in sorted name order with no
exception handling, so the first unreadable or malformed file makes the
whole load raise. -/
def loadPatterns {α : Type} (dir : Option (List (KnowledgeFile α))) :
    Except Unit (List α) :=
  match dir with
  | none => .ok []
  | some files => loadGo [] (sortFiles files)

/-! ## `anomaly_warning` and `run_build` (`build-system/cli/buildctl.py`) -/

/-- `anomaly_warning(history, duration_ms)`: warns iff
`avg and duration_ms > avg * 1.5` — the average must be truthy (present
and nonzero) and the duration strictly above 1.5 times it. Returns
whether the warning line is printed. -/
def anomalyWarning (avg : Option ℚ) (durationMs : ℚ) : Bool :=
  match avg with
  | none => false
  | some a => decide (a ≠ 0) && decide (durationMs > a * (3 / 2))

/-! ## `run_build` (`build-system/cli/buildctl.py`, lines 33–149)

External collaborators are explicit inputs: the preflight outcome, the
fingerprint digest, the adapter result each phase would return when
invoked, the measured total duration, the `git_info` strings, and the
average the history store reports for `anomaly_warning`. The returned
record collects the emitted events, the phases whose adapter was actually
invoked, the metrics and history writes, the anomaly print, and the exit
code. -/

/-- The `(exit_code, output, elapsed)` triple a phase's adapter call
returns, with `durationMs` already the `int(duration * 1000)` value. -/
structure AdapterResult where
  exitCode : Int
  output : String
  durationMs : Nat
deriving DecidableEq

/-- One entry of the `phases` list: the phase name and the result its
adapter call returns if the loop reaches it. -/
structure PhaseSpec where
  name : String
  result : AdapterResult
deriving DecidableEq

/-- All inputs of one `run_build` invocation. -/
structure RunInputs where
  skipPreflight : Bool
  force : Bool
  preflightOk : Bool
  preflightMessages : List String
  project : String
  configuration : String
  fingerprintDigest : String
  phases : List PhaseSpec
  totalDurationMs : Nat
  timestamp : String
  gitSha : String
  gitBranch : String
  priorBuilds : Nat
  histAvg : Option ℚ
  logFile : String

/-- The `started` event emitted before a phase's adapter call. -/
def startedEvent (project phase : String) : EmitCall :=
  { phase := phase, project := project, eventType := "started", tags := [phase] }

/-- The `completed` event emitted after a phase exits 0. -/
def completedEvent (project phase : String) (durationMs : Nat) : EmitCall :=
  { phase := phase, project := project, eventType := "completed",
    durationMs := some durationMs, tags := [phase] }

/-- The `failed` event emitted after a phase exits nonzero. -/
def failedEvent (project phase : String) (r : AdapterResult) : EmitCall :=
  { phase := phase, project := project, eventType := "failed",
    durationMs := some r.durationMs,
    errorCode := some ("exit-" ++ toString r.exitCode),
    errorMessage := some "Build phase failed", tags := [phase] }

/-- The event emitted when preflight fails and `--force` is absent. -/
def preflightFailedEvent (i : RunInputs) : EmitCall :=
  { phase := "preflight", project := i.project, eventType := "failed",
    errorMessage := some (String.intercalate "; " i.preflightMessages),
    tags := ["preflight"] }

/-- The event emitted when preflight fails but `--force` is set. -/
def preflightWarningEvent (i : RunInputs) : EmitCall :=
  { phase := "preflight", project := i.project, eventType := "warning",
    errorMessage := some (String.intercalate "; " i.preflightMessages),
    tags := ["preflight"] }

/-- The event emitted when preflight succeeds. -/
def preflightCompletedEvent (i : RunInputs) : EmitCall :=
  { phase := "preflight", project := i.project, eventType := "completed",
    tags := ["preflight"] }

/-- The fingerprint event. -/
def fingerprintEvent (i : RunInputs) : EmitCall :=
  { phase := "fingerprint", project := i.project, eventType := "completed",
    context := [("fingerprint", i.fingerprintDigest)] }

/-- The aggregate `build` summary event. -/
def buildSummaryEvent (i : RunInputs) (success : Bool) : EmitCall :=
  { phase := "build", project := i.project,
    eventType := if success then "completed" else "failed",
    durationMs := some i.totalDurationMs,
    context := [("log", i.logFile)], tags := ["summary"] }

/-- The state the phase loop accumulates: events in emission order, the
phases whose adapter was invoked, the `phase_durations` and
`phase_success` dicts in insertion order, the running `success` flag and
the captured `error_output`. -/
structure PhaseLoopResult where
  events : List EmitCall
  invoked : List String
  durations : List (String × Nat)
  successes : List (String × Bool)
  success : Bool
  errorOutput : String
deriving DecidableEq

/-- The `for phase, func, parameters in phases` loop of `run_build`: emit
`started`, invoke the adapter, emit `completed` on exit 0 or `failed` on a
nonzero exit and `break`. -/
def phaseLoop (project : String) : List PhaseSpec → PhaseLoopResult
  | [] =>
      { events := [], invoked := [], durations := [], successes := [],
        success := true, errorOutput := "" }
  | p :: rest =>
      if p.result.exitCode = 0 then
        let r := phaseLoop project rest
        { events := startedEvent project p.name ::
            completedEvent project p.name p.result.durationMs :: r.events
          invoked := p.name :: r.invoked
          durations := (p.name, p.result.durationMs) :: r.durations
          successes := (p.name, true) :: r.successes
          success := r.success
          errorOutput := r.errorOutput }
      else
        { events := [startedEvent project p.name, failedEvent project p.name p.result]
          invoked := [p.name]
          durations := [(p.name, p.result.durationMs)]
          successes := [(p.name, false)]
          success := false
          errorOutput := p.result.output }

/-- Everything one `run_build` invocation does, besides its exit code:
the events it emits in order, the phases it invokes, the metrics dict it
writes, the history writes it performs, whether `anomaly_warning`
printed, and whether the error matcher ran over the failing output. -/
structure RunResult where
  events : List EmitCall
  invoked : List String
  metrics : List (String × Int)
  historyOps : List HistoryOp
  anomalyPrinted : Bool
  matcherRan : Bool
  errorOutput : String
  exitCode : Int
deriving DecidableEq

/-- `run_build(args)`. The early `return 2` branch emits only the
preflight failure event and performs nothing else; otherwise the run
emits the preflight event (unless skipped), the fingerprint event, the
phase-loop events and the aggregate event, writes the metrics, inserts
one build row plus one phase row per executed phase, computes the anomaly
signal, and exits 1 on a phase failure (after error matching) or 0. -/
def runBuild (i : RunInputs) : RunResult :=
  if !i.skipPreflight && !i.preflightOk && !i.force then
    { events := [preflightFailedEvent i], invoked := [], metrics := [],
      historyOps := [], anomalyPrinted := false, matcherRan := false,
      errorOutput := "", exitCode := 2 }
  else
    let preEvents : List EmitCall :=
      if i.skipPreflight then []
      else if !i.preflightOk then [preflightWarningEvent i]
      else [preflightCompletedEvent i]
    let loop := phaseLoop i.project i.phases
    let events := preEvents ++ [fingerprintEvent i] ++ loop.events ++
      [buildSummaryEvent i loop.success]
    let m0 := record [] "build.duration_ms" i.totalDurationMs
    let m1 := loop.durations.foldl
      (fun m pd => record m ("build.phase." ++ pd.1 ++ ".duration_ms") pd.2) m0
    let m2 := record m1 "build.success" (if loop.success then 1 else 0)
    let buildRecord : BuildRecord :=
      { fingerprint := i.fingerprintDigest
        timestamp := i.timestamp
        durationMs := i.totalDurationMs
        success := loop.success
        gitSha := i.gitSha
        gitBranch := i.gitBranch
        warningsCount := 0
        errorsCount := if loop.success then 0 else 1
        configuration := i.configuration }
    let buildId : Int := i.priorBuilds + 1
    let ops := HistoryOp.recordBuild buildRecord ::
      loop.durations.map (fun pd =>
        HistoryOp.recordPhase buildId pd.1 pd.2
          (((loop.successes.lookup pd.1).getD true)))
    { events := events
      invoked := loop.invoked
      metrics := m2
      historyOps := ops
      anomalyPrinted := anomalyWarning i.histAvg i.totalDurationMs
      matcherRan := !loop.success
      errorOutput := loop.errorOutput
      exitCode := if !loop.success then 1 else 0 }

/-- The concrete short-circuit scenario of the short-circuit claim:
restore succeeds, compile fails with exit 1, test would succeed. -/
def c2Inputs : RunInputs :=
  { skipPreflight := false
    force := false
    preflightOk := true
    preflightMessages := []
    project := "proj"
    configuration := "Release"
    fingerprintDigest := "fp0"
    phases :=
      [{ name := "restore", result := { exitCode := 0, output := "", durationMs := 10 } },
       { name := "compile", result := { exitCode := 1, output := "error CS1001", durationMs := 20 } },
       { name := "test", result := { exitCode := 0, output := "", durationMs := 30 } }]
    totalDurationMs := 60
    timestamp := "2024-01-01T00:00:01.000Z"
    gitSha := "sha0"
    gitBranch := "main"
    priorBuilds := 0
    histAvg := none
    logFile := "build.log" }

/-- A concrete all-success run with two phases, used to instantiate the
event-shape claim. -/
def c3Inputs : RunInputs :=
  { c2Inputs with
    phases :=
      [{ name := "restore", result := { exitCode := 0, output := "", durationMs := 10 } },
       { name := "build", result := { exitCode := 0, output := "", durationMs := 20 } }] }

/-- A concrete event used to instantiate the sink-isolation claims. -/
def c4Event : EmitCall :=
  { phase := "restore", project := "proj", eventType := "completed",
    durationMs := some 10, tags := ["restore"] }

/-! ## Helper lemmas -/

/-- Setting a key and reading it back yields the set value (Python dict
assignment semantics). -/
theorem dictGet_dictSet (m : List (String × Int)) (k : String) (v : Int) :
    dictGet (dictSet m k v) k = some v := by
  induction m with
  | nil => simp [dictSet, dictGet]
  | cons kv rest ih =>
      by_cases h : kv.1 = k
      · simp [dictSet, dictGet, h]
      · simpa [dictSet, dictGet, h] using ih

/-- The phase loop on an all-success phase list: every phase is invoked,
each contributes a started/completed pair, and the loop succeeds. -/
theorem phaseLoop_all_ok (project : String) (phases : List PhaseSpec)
    (h : ∀ q ∈ phases, q.result.exitCode = 0) :
    phaseLoop project phases =
      { events := phases.flatMap fun p =>
          [startedEvent project p.name, completedEvent project p.name p.result.durationMs]
        invoked := phases.map PhaseSpec.name
        durations := phases.map fun p => (p.name, p.result.durationMs)
        successes := phases.map fun p => (p.name, true)
        success := true
        errorOutput := "" } := by
  induction phases with
  | nil => rfl
  | cons p rest ih =>
      have hp : p.result.exitCode = 0 := h p (List.mem_cons_self p rest)
      have hrest : ∀ q ∈ rest, q.result.exitCode = 0 := fun q hq => h q (List.mem_cons_of_mem p hq)
      simp [phaseLoop, hp, ih hrest]

/-- The phase loop when the phases before `p` succeed and `p` fails: the
phases after `p` contribute nothing, the loop records `p` as failed and
captures its output. -/
theorem phaseLoop_first_failure (project : String) (pre : List PhaseSpec)
    (p : PhaseSpec) (post : List PhaseSpec)
    (hpre : ∀ q ∈ pre, q.result.exitCode = 0) (hp : p.result.exitCode ≠ 0) :
    phaseLoop project (pre ++ p :: post) =
      { events := (pre.flatMap fun q =>
          [startedEvent project q.name, completedEvent project q.name q.result.durationMs]) ++
          [startedEvent project p.name, failedEvent project p.name p.result]
        invoked := pre.map PhaseSpec.name ++ [p.name]
        durations := pre.map (fun q => (q.name, q.result.durationMs)) ++
          [(p.name, p.result.durationMs)]
        successes := pre.map (fun q => (q.name, true)) ++ [(p.name, false)]
        success := false
        errorOutput := p.result.output } := by
  induction pre with
  | nil => simp [phaseLoop, hp]
  | cons q rest ih =>
      have hq : q.result.exitCode = 0 := hpre q (List.mem_cons_self q rest)
      have hrest : ∀ r ∈ rest, r.result.exitCode = 0 := fun r hr => hpre r (List.mem_cons_of_mem q hr)
      simp [phaseLoop, hq, ih hrest]

/-- Running the `_load_patterns` loop over files that all parse
accumulates their payloads in order. -/
theorem loadGo_all_ok {α : Type} (files : List (KnowledgeFile α)) :
    ∀ acc : List α, (∀ f ∈ files, f.parsed ≠ none) →
      loadGo acc files = .ok (acc ++ files.filterMap fun f => f.parsed) := by
  induction files with
  | nil => intro acc _; simp [loadGo]
  | cons f rest ih =>
      intro acc h
      have hf : f.parsed ≠ none := h f (List.mem_cons_self f rest)
      obtain ⟨p, hp⟩ := Option.ne_none_iff_exists'.mp hf
      have hrest : ∀ g ∈ rest, g.parsed ≠ none := fun g hg => h g (List.mem_cons_of_mem f hg)
      simp [loadGo, hp, ih (acc ++ [p]) hrest, List.filterMap_cons]

/-- Running the `_load_patterns` loop over files one of which fails to
parse raises. -/
theorem loadGo_has_error {α : Type} (files : List (KnowledgeFile α)) :
    ∀ acc : List α, (∃ f ∈ files, f.parsed = none) →
      loadGo acc files = .error () := by
  induction files with
  | nil => intro acc h; obtain ⟨f, hf, _⟩ := h; exact absurd hf (List.not_mem_nil f)
  | cons f rest ih =>
      intro acc h
      cases hp : f.parsed with
      | none => simp [loadGo, hp]
      | some p =>
          obtain ⟨g, hg, hgp⟩ := h
          rcases List.mem_cons.mp hg with hgf | hgr
          · subst hgf; rw [hp] at hgp; exact absurd hgp (Option.some_ne_none p)
          · simp [loadGo, hp, ih (acc ++ [p]) ⟨g, hgr, hgp⟩]

/-- Two started/completed-style events per phase. -/
theorem flatMap_pair_length {α β : Type} (l : List α) (f g : α → β) :
    (l.flatMap fun x => [f x, g x]).length = 2 * l.length := by
  induction l with
  | nil => rfl
  | cons x rest ih => simp [List.flatMap_cons, ih]; ring

/-! ## Claim theorems -/

/-- Claim C10: for every verbosity string other than `quiet` — including
strings outside `{quiet, normal, verbose, debug}` — the emitter echoes
every event to the console, while `quiet` echoes exactly the `failed` and
`warning` events; the console sink of `emit` receives the event exactly
when `_should_print` allows. -/
theorem should_print_verbosity :
    (∀ v t : String, v ≠ "quiet" → shouldPrint v t = true) ∧
    (∀ t : String, shouldPrint "quiet" t = (t = "failed" || t = "warning")) ∧
    (∀ (v : String) (e : EmitCall) (s : SinkState),
      (emitEvent true true true v e s).1.console =
        s.console ++ (if shouldPrint v e.eventType then [e] else [])) := by
  refine ⟨?_, ?_, ?_⟩
  · intro v t hv
    simp [shouldPrint, hv]
  · intro t; rfl
  · intro v e s
    by_cases h : shouldPrint v e.eventType <;> simp [emitEvent, h]

/-- Claim C10 witness: an undocumented verbosity string echoes a
`started` event. -/
theorem should_print_verbosity_witness : shouldPrint "chatty" "started" = true :=
  should_print_verbosity.1 "chatty" "started" (by decide)

/-- Claim C8: recording the same metric name twice keeps only the second
value: in the dict, in the sorted-key JSON export, and in the
text-exposition lines for the sanitized name; and against any prior dict
the last write for a name wins. -/
theorem metrics_last_write_wins :
    ∀ (x : String) (v1 v2 : Int),
      (record (record [] x v1) x v2 = [(x, v2)] ∧
       metricsJsonPairs (record (record [] x v1) x v2) = [(x, v2)] ∧
       promLines (record (record [] x v1) x v2) =
         ["# TYPE " ++ sanitizeName x ++ " gauge",
          sanitizeName x ++ " " ++ toString v2]) ∧
      ∀ m : List (String × Int), dictGet (record (record m x v1) x v2) x = some v2 := by
  intro x v1 v2
  have h1 : record (record [] x v1) x v2 = [(x, v2)] := by
    simp [record, dictSet]
  refine ⟨⟨h1, ?_, ?_⟩, fun m => dictGet_dictSet (dictSet m x v1) x v2⟩
  · rw [h1]
    simp [metricsJsonPairs, List.insertionSort]
  · rw [h1]
    simp [promLines]

/-- Claim C7 counterexample: a history with one build whose duration is
0 ms has build records, yet `average_duration` returns the no-data
signal, because `if row and row[0]` treats the 0.0 average as falsy. -/
theorem average_duration_none_despite_records :
    averageDuration [0] = none ∧ ([0] : List Int) ≠ [] := by
  refine ⟨?_, by decide⟩
  simp [averageDuration, listMean]

/-- Claim C7 (amended): `average_duration` returns the arithmetic mean of
`duration_ms` over all stored builds, except that it returns `None` both
when no build records exist and when the mean is 0. -/
theorem average_duration_mean_or_none :
    ∀ builds : List Int,
      averageDuration builds =
        if builds = [] ∨ listMean builds = 0 then none else some (listMean builds) := by
  intro builds
  by_cases h1 : builds = []
  · simp [averageDuration, h1]
  · by_cases h2 : listMean builds = 0 <;> simp [averageDuration, h1, h2]

/-- Claim C6: with a historical average of 1000 ms, `anomaly_warning`
warns at 1600 ms and not at 1400 ms, 1499 ms or 1500 ms; in general it
warns exactly when the duration strictly exceeds 1.5 times a nonzero
average; and the anomaly signal never affects `run_build`'s exit code. -/
theorem anomaly_warning_threshold :
    anomalyWarning (some 1000) 1600 = true ∧
    anomalyWarning (some 1000) 1400 = false ∧
    anomalyWarning (some 1000) 1499 = false ∧
    anomalyWarning (some 1000) 1500 = false ∧
    (∀ a d : ℚ, anomalyWarning (some a) d = true ↔ a ≠ 0 ∧ d > a * (3 / 2)) ∧
    (∀ (i : RunInputs) (avg : Option ℚ),
      (runBuild { i with histAvg := avg }).exitCode = (runBuild i).exitCode) := by
  refine ⟨by norm_num [anomalyWarning], by norm_num [anomalyWarning],
    by norm_num [anomalyWarning], by norm_num [anomalyWarning], ?_, ?_⟩
  · intro a d
    simp [anomalyWarning]
  · intro i avg
    obtain ⟨sp, fo, ok, msgs, pr, cfg, fp, ph, td, ts, sha, br, pb, ha, lf⟩ := i
    by_cases h : (!sp && !ok && !fo) = true <;> simp [runBuild, h]

/-- Claim C5 counterexample: a knowledge directory holding one malformed
unit makes `_load_patterns` raise (the `json.loads` call has no exception
handling), instead of skipping the unit and returning the remaining
well-formed ones. -/
theorem load_patterns_malformed_aborts :
    loadPatterns (some [({ name := "broken.json", parsed := none } : KnowledgeFile Nat)]) =
      .error () ∧
    loadPatterns (some [({ name := "broken.json", parsed := none } : KnowledgeFile Nat),
      { name := "good.json", parsed := some 7 }]) = .error () := by
  exact ⟨rfl, rfl⟩

/-- Claim C5 (amended): an absent knowledge directory yields the empty
library; when every unit is readable and well formed the load returns all
their payloads in sorted file-name order; but one unreadable or malformed
unit makes the whole load raise. -/
theorem load_patterns_amended :
    (loadPatterns (none : Option (List (KnowledgeFile Nat))) = .ok []) ∧
    (∀ (α : Type) (files : List (KnowledgeFile α)),
      (∀ f ∈ files, f.parsed ≠ none) →
        loadPatterns (some files) = .ok ((sortFiles files).filterMap fun f => f.parsed)) ∧
    (∀ (α : Type) (files : List (KnowledgeFile α)),
      (∃ f ∈ files, f.parsed = none) → loadPatterns (some files) = .error ()) := by
  refine ⟨rfl, ?_, ?_⟩
  · intro α files h
    have hs : ∀ f ∈ sortFiles files, f.parsed ≠ none := by
      intro f hf
      exact h f ((List.perm_insertionSort _ files).mem_iff.mp hf)
    exact (loadGo_all_ok (sortFiles files) [] hs).trans (by simp)
  · intro α files hex
    obtain ⟨f, hf, hfp⟩ := hex
    exact loadGo_has_error (sortFiles files) []
      ⟨f, (List.perm_insertionSort _ files).mem_iff.mpr hf, hfp⟩

/-- Claim C5 witness: two well-formed units load in sorted name order. -/
theorem load_patterns_amended_witness :
    loadPatterns (some [({ name := "b.json", parsed := some 2 } : KnowledgeFile Nat),
      { name := "a.json", parsed := some 1 }]) = .ok [1, 2] :=
  (load_patterns_amended.2.1 Nat
    [{ name := "b.json", parsed := some 2 }, { name := "a.json", parsed := some 1 }]
    (by decide)).trans (by rfl)

/-- Claim C4 counterexample: when the JSONL journal write raises, the
event reaches neither the human-readable log nor the console, so a
failure in one sink does prevent the others. -/
theorem emit_journal_failure_blocks_other_sinks :
    (emitEvent false true true "normal" c4Event {}).1.humanLog = [] ∧
    (emitEvent false true true "normal" c4Event {}).1.console = [] ∧
    (emitEvent false true true "normal" c4Event {}).2 = false := by
  decide

/-- Claim C4 (amended): the sinks are written in the fixed order JSONL
journal, human log, console; a failure in one sink prevents the event
from reaching the sinks written after it, while the writes already
performed to earlier sinks persist. -/
theorem emit_sink_failure_order :
    ∀ (jOk hOk cOk : Bool) (v : String) (e : EmitCall) (s : SinkState),
      (jOk = true → (emitEvent jOk hOk cOk v e s).1.jsonl = s.jsonl ++ [e]) ∧
      (jOk = true → hOk = true →
        (emitEvent jOk hOk cOk v e s).1.humanLog = s.humanLog ++ [e]) ∧
      (jOk = false → (emitEvent jOk hOk cOk v e s).1 = s) ∧
      (jOk = true → hOk = false →
        (emitEvent jOk hOk cOk v e s).1.console = s.console) := by
  intro jOk hOk cOk v e s
  refine ⟨?_, ?_, ?_, ?_⟩
  · intro hj
    subst hj
    cases hOk <;> cases cOk <;>
      by_cases hp : shouldPrint v e.eventType <;> simp [emitEvent, hp]
  · intro hj hh
    subst hj; subst hh
    cases cOk <;> by_cases hp : shouldPrint v e.eventType <;> simp [emitEvent, hp]
  · intro hj
    subst hj
    simp [emitEvent]
  · intro hj hh
    subst hj; subst hh
    simp [emitEvent]

/-- Claim C4 witness: with a failing human-log sink, the journal keeps
the event while the console never gets it. -/
theorem emit_sink_failure_order_witness :
    (emitEvent true false true "normal" c4Event {}).1.jsonl = [c4Event] ∧
    (emitEvent true false true "normal" c4Event {}).1.console = [] :=
  ⟨(emit_sink_failure_order true false true "normal" c4Event {}).1 rfl,
   (emit_sink_failure_order true false true "normal" c4Event {}).2.2.2 rfl rfl⟩

/-- Claim C9: every row `record_phase` inserts has `cache_hit = 0`, for
every build id, phase, duration and success flag; and across any sequence
of `BuildHistory` write operations starting from a fresh store, every row
of `build_phases` has `cache_hit = 0`. -/
theorem history_cache_hit_always_zero :
    (∀ (buildId : Int) (phase : String) (durationMs : Int) (success : Bool),
      (recordPhaseRow buildId phase durationMs success).cacheHit = 0) ∧
    (∀ ops : List HistoryOp, ∀ r ∈ (applyOps initDB ops).buildPhases, r.cacheHit = 0) := by
  constructor
  · intro _ _ _ _; rfl
  · have inv : ∀ (ops : List HistoryOp) (db : HistoryDB),
        (∀ r ∈ db.buildPhases, r.cacheHit = 0) →
        ∀ r ∈ (applyOps db ops).buildPhases, r.cacheHit = 0 := by
      intro ops
      induction ops with
      | nil => intro db h; simpa [applyOps] using h
      | cons op rest ih =>
          intro db h
          have h' : ∀ r ∈ (applyOp db op).buildPhases, r.cacheHit = 0 := by
            cases op with
            | recordBuild b => simpa [applyOp] using h
            | recordPhase bid ph d su =>
                intro r hr
                simp [applyOp] at hr
                rcases hr with hr | hr
                · exact h r hr
                · rw [hr]; rfl
          have : applyOps db (op :: rest) = applyOps (applyOp db op) rest := rfl
          rw [this]
          exact ih (applyOp db op) h'
    intro ops
    exact inv ops initDB (by intro r hr; exact absurd hr (List.not_mem_nil r))

/-- Claim C9 witness: the row of a concrete successful `record_phase`
insert carries `cache_hit = 0`. -/
theorem history_cache_hit_always_zero_witness :
    (recordPhaseRow 1 "restore" 10 true).cacheHit = 0 :=
  history_cache_hit_always_zero.2 [HistoryOp.recordPhase 1 "restore" 10 true]
    (recordPhaseRow 1 "restore" 10 true) (by decide)

/-- Claim C2: in the concrete run [restore ok, compile fails, test ok]
the test adapter is never invoked, the events are exactly the preflight
and fingerprint events, the restore started/completed pair, the compile
started/failed pair and the failed summary, and the exit code is 1; in
general, whenever the phases before `p` succeed and `p` returns a nonzero
exit code (and preflight does not abort the run), no phase after `p` is
attempted and `run_build` returns 1. -/
theorem run_build_short_circuit :
    ((runBuild c2Inputs).invoked = ["restore", "compile"] ∧
     "test" ∉ (runBuild c2Inputs).invoked ∧
     (runBuild c2Inputs).events =
       [preflightCompletedEvent c2Inputs, fingerprintEvent c2Inputs,
        startedEvent "proj" "restore", completedEvent "proj" "restore" 10,
        startedEvent "proj" "compile",
        failedEvent "proj" "compile"
          { exitCode := 1, output := "error CS1001", durationMs := 20 },
        buildSummaryEvent c2Inputs false] ∧
     (runBuild c2Inputs).exitCode = 1) ∧
    (∀ (i : RunInputs) (pre : List PhaseSpec) (p : PhaseSpec) (post : List PhaseSpec),
      i.phases = pre ++ p :: post →
      (∀ q ∈ pre, q.result.exitCode = 0) →
      p.result.exitCode ≠ 0 →
      (i.skipPreflight = true ∨ i.preflightOk = true ∨ i.force = true) →
      (runBuild i).invoked = pre.map PhaseSpec.name ++ [p.name] ∧
      (runBuild i).exitCode = 1) := by
  constructor
  · refine ⟨by decide, by decide, ?_, by decide⟩
    decide
  · intro i pre p post hph hpre hp hnot
    have hcond : (!i.skipPreflight && !i.preflightOk && !i.force) = false := by
      rcases hnot with h | h | h <;> simp [h]
    have hloop := phaseLoop_first_failure i.project pre p post hpre hp
    constructor
    · simp [runBuild, hcond, hph, hloop]
    · simp [runBuild, hcond, hph, hloop]

/-- Claim C2 witness: the general short-circuit statement instantiated at
the concrete three-phase scenario. -/
theorem run_build_short_circuit_witness :
    (runBuild c2Inputs).invoked = ["restore", "compile"] ∧
    (runBuild c2Inputs).exitCode = 1 :=
  run_build_short_circuit.2 c2Inputs
    [{ name := "restore", result := { exitCode := 0, output := "", durationMs := 10 } }]
    { name := "compile", result := { exitCode := 1, output := "error CS1001", durationMs := 20 } }
    [{ name := "test", result := { exitCode := 0, output := "", durationMs := 30 } }]
    rfl (by decide) (by decide) (Or.inr (Or.inl rfl))

/-- Claim C3: a run with preflight executed and passing in which every
phase exits 0 emits exactly `2 + 2N + 1` events, in order: the preflight
event, the fingerprint event, a started/completed pair per phase in list
order, and the aggregate build event; the exit code is 0. -/
theorem run_build_all_success_events :
    ∀ i : RunInputs, i.skipPreflight = false → i.preflightOk = true →
      (∀ p ∈ i.phases, p.result.exitCode = 0) →
      (runBuild i).events =
        preflightCompletedEvent i :: fingerprintEvent i ::
          ((i.phases.flatMap fun p =>
            [startedEvent i.project p.name,
             completedEvent i.project p.name p.result.durationMs]) ++
           [buildSummaryEvent i true]) ∧
      (runBuild i).events.length = 2 + 2 * i.phases.length + 1 ∧
      (runBuild i).exitCode = 0 := by
  intro i hskip hok hall
  have hcond : (!i.skipPreflight && !i.preflightOk && !i.force) = false := by
    simp [hok]
  have hloop := phaseLoop_all_ok i.project i.phases hall
  have hev : (runBuild i).events =
      preflightCompletedEvent i :: fingerprintEvent i ::
        ((i.phases.flatMap fun p =>
          [startedEvent i.project p.name,
           completedEvent i.project p.name p.result.durationMs]) ++
         [buildSummaryEvent i true]) := by
    simp [runBuild, hcond, hskip, hok, hloop]
  refine ⟨hev, ?_, ?_⟩
  · rw [hev]
    simp [flatMap_pair_length i.phases]
    ring
  · simp [runBuild, hcond, hloop]

/-- Claim C3 witness: the event-shape statement instantiated at a
concrete two-phase all-success run. -/
theorem run_build_all_success_events_witness :
    (runBuild c3Inputs).events.length = 7 ∧ (runBuild c3Inputs).exitCode = 0 :=
  ⟨(run_build_all_success_events c3Inputs rfl rfl (by decide)).2.1,
   (run_build_all_success_events c3Inputs rfl rfl (by decide)).2.2⟩

set_option maxRecDepth 1000000 in
/-- Claim C1 counterexample: two `compute` invocations over the identical
source tree, environment, lock files, tool versions, platform and
configuration, differing only in the probed wall-clock timestamp, yield
different `fingerprint` digests, because the digested canonical
serialization includes the fresh `timestamp` field. -/
theorem fingerprint_digest_changes_with_timestamp :
    probeB.sourceHash = probeA.sourceHash ∧
    probeB.toolVersions = probeA.toolVersions ∧
    probeB.dependencyLockHashes = probeA.dependencyLockHashes ∧
    probeB.environment = probeA.environment ∧
    probeB.os = probeA.os ∧ probeB.architecture = probeA.architecture ∧
    (compute probeA "Release").fingerprint ≠ (compute probeB "Release").fingerprint := by
  refine ⟨rfl, rfl, rfl, rfl, rfl, rfl, ?_⟩
  decide

/-- Claim C1 (amended): the digest is a function of the probe results and
the configuration alone — two computations whose probed timestamp, source
tree identity, tool versions, lock-file hashes, environment snapshot,
platform strings and configuration all coincide produce the identical
`fingerprint` digest. -/
theorem fingerprint_deterministic_given_probes :
    ∀ (p q : FingerprintProbes) (c c' : String),
      p.timestamp = q.timestamp → p.sourceHash = q.sourceHash →
      p.toolVersions = q.toolVersions →
      p.dependencyLockHashes = q.dependencyLockHashes →
      p.environment = q.environment → p.os = q.os →
      p.architecture = q.architecture → c = c' →
      (compute p c).fingerprint = (compute q c').fingerprint := by
  intro p q c c' h1 h2 h3 h4 h5 h6 h7 h8
  cases p
  cases q
  subst h8
  simp only at h1 h2 h3 h4 h5 h6 h7
  subst h1 h2 h3 h4 h5 h6 h7
  rfl

/-- Claim C1 witness: the determinism statement instantiated at a
concrete repeated computation with unchanged probes. -/
theorem fingerprint_deterministic_given_probes_witness :
    (compute probeA "Release").fingerprint = (compute probeA "Release").fingerprint :=
  fingerprint_deterministic_given_probes probeA probeA "Release" "Release"
    rfl rfl rfl rfl rfl rfl rfl rfl

end BuildObs
